import Mathlib

/-!
Verification development for the Tray_Chat_AI repository
(`tray_chat_ai.py`).  The Python code is shallowly embedded as pure
Lean functions: each embedded definition mirrors one function (or one
clearly delimited code path) of the source, machine strings are Lean
`String`s, subprocess / Docker-API outcomes are explicit inductive
events, and the Qt action set is an explicit record that the
status-poll transition function updates.
-/

namespace TrayChatAI

/- ## Python string primitives used by the source -/

/-- Backquote character (code 96), used by the fenced-code-block logic. -/
def btick : Char := Char.ofNat 96

/-- The three-backquote fence delimiter as a character list. -/
def tripleL : List Char := [btick, btick, btick]

/-- Fuel-driven model of Python `str.replace` (leftmost, non-overlapping,
no rescan of the replacement).  Fuel is the length of the subject, which
bounds the number of steps since every step consumes at least one
character of the subject. -/
def replaceL (pat rep : List Char) : Nat → List Char → List Char
  | 0, l => l
  | _, [] => []
  | Nat.succ n, c :: rest =>
    if pat ≠ [] ∧ pat.isPrefixOf (c :: rest) then
      rep ++ replaceL pat rep n ((c :: rest).drop pat.length)
    else
      c :: replaceL pat rep n rest

/-- Python `s.replace(pat, rep)` on strings. -/
def pyReplace (s pat rep : String) : String :=
  ⟨replaceL pat.data rep.data s.data.length s.data⟩

/-- Substring scan used to model Python `in`. -/
def isInfixL (needle : List Char) : List Char → Bool
  | [] => needle.isEmpty
  | c :: rest => needle.isPrefixOf (c :: rest) || isInfixL needle rest

/-- Python `needle in hay` for strings. -/
def pyContains (hay needle : String) : Bool :=
  isInfixL needle.data hay.data

/-- Python `s.startswith(p)`. -/
def pyStartsWith (s p : String) : Bool := p.data.isPrefixOf s.data

/-- Python `s.endswith(p)`. -/
def pyEndsWith (s p : String) : Bool := p.data.isSuffixOf s.data

/-- Python `\s` on ASCII input, also the whitespace stripped by
`str.strip()`. -/
def isPySpace (c : Char) : Bool :=
  c = ' ' || c = '\t' || c = '\n' || c = '\r' || c = '\x0b' || c = '\x0c'

/-- Python `s.strip()`: drop whitespace from both ends. -/
def pyStrip (s : String) : String :=
  ⟨((s.data.dropWhile isPySpace).reverse.dropWhile isPySpace).reverse⟩

/-- Python `s.lower()` on ASCII input. -/
def pyLower (s : String) : String := ⟨s.data.map Char.toLower⟩

/-- Python `s.split(sep)` for a one-character separator: no empty-field
suppression, and the empty string splits to one empty field. -/
def pySplitChar (sep : Char) : List Char → List (List Char)
  | [] => [[]]
  | c :: rest =>
    if c = sep then [] :: pySplitChar sep rest
    else
      match pySplitChar sep rest with
      | h :: t => (c :: h) :: t
      | [] => [[c]]

/- ## ANSI escape stripping

The source compiles the usual ANSI-escape regex (an ESC byte followed by
either a single final byte in 0x40–0x5A or 0x5C–0x5F, or by 0x5B, then
parameter bytes 0x30–0x3F, then intermediate bytes 0x20–0x2F, then one
final byte 0x40–0x7E) and substitutes the empty string for every match.
The character classes are disjoint, so the regex is deterministic and is
modelled by a direct scan. -/

/-- Membership in the class `[@-Z\\-_]` (0x40–0x5A and 0x5C–0x5F). -/
def isAnsiSingleFinal (c : Char) : Bool :=
  (0x40 ≤ c.toNat ∧ c.toNat ≤ 0x5A) ∨ (0x5C ≤ c.toNat ∧ c.toNat ≤ 0x5F)

/-- Membership in the CSI parameter class `[0-?]` (0x30–0x3F). -/
def isAnsiParam (c : Char) : Bool := 0x30 ≤ c.toNat ∧ c.toNat ≤ 0x3F

/-- Membership in the CSI intermediate class (0x20–0x2F). -/
def isAnsiInter (c : Char) : Bool := 0x20 ≤ c.toNat ∧ c.toNat ≤ 0x2F

/-- Membership in the CSI final class `[@-~]` (0x40–0x7E). -/
def isAnsiFinal (c : Char) : Bool := 0x40 ≤ c.toNat ∧ c.toNat ≤ 0x7E

/-- Consume parameter bytes, then intermediate bytes, then one final
byte after the CSI opener; `none` when the final byte is missing, in
which case the regex match fails at this position. -/
def consumeCSI (l : List Char) : Option (List Char) :=
  match (l.dropWhile isAnsiParam).dropWhile isAnsiInter with
  | c :: rest => if isAnsiFinal c then some rest else none
  | [] => none

/-- Fuel-driven scan deleting every ANSI escape sequence; fuel is the
input length, which bounds the number of steps. -/
def stripAnsiAux : Nat → List Char → List Char
  | 0, l => l
  | _, [] => []
  | Nat.succ n, c :: rest =>
    if c = '\x1B' then
      match rest with
      | [] => [c]
      | d :: rest2 =>
        if isAnsiSingleFinal d then stripAnsiAux n rest2
        else if d = '[' then
          match consumeCSI rest2 with
          | some rest3 => stripAnsiAux n rest3
          | none => c :: stripAnsiAux n rest
        else c :: stripAnsiAux n rest
    else c :: stripAnsiAux n rest

/-- `ansi_escape.sub('', s)` of the source. -/
def stripAnsi (s : String) : String := ⟨stripAnsiAux s.data.length s.data⟩

/- ## Container status prober (`update_status`)

`update_status` runs
`subprocess.run(["docker", "inspect", "-f", "...{{.State.Running}}|...", name],
capture_output=True, text=True)` — note: without `check=True` — and then
parses `result.stdout`.  The possible outcomes of that call, together
with the Docker-API exceptions handled by the surrounding `try`, are the
probe events below.  `calledProcessError` is kept because the source has
an `except subprocess.CalledProcessError` handler, but since `check=True`
is not passed, `subprocess.run` never raises it for this call: a process
that runs and exits non-zero is reported as `ran` with its exit code. -/

/-- Raw outcome of attempting the `docker inspect` subprocess. -/
inductive InspectOutcome
  | exited (code : Int) (stdout stderr : String)
  | commandMissing
  | daemonDown
  | other
deriving DecidableEq

/-- Event seen by the body of `update_status`. -/
inductive ProbeEvent
  | ran (code : Int) (stdout stderr : String)
  | fileNotFound
  | calledProcessError (stderr : String)
  | dockerException
  | unexpected
deriving DecidableEq

/-- Semantics of `subprocess.run` without `check=True`: a command that
executes and exits (with any exit code) returns a `CompletedProcess`, so
the `except subprocess.CalledProcessError` handler of `update_status` is
unreachable for this call. -/
def probeEventOf : InspectOutcome → ProbeEvent
  | .exited c out err => .ran c out err
  | .commandMissing => .fileNotFound
  | .daemonDown => .dockerException
  | .other => .unexpected

/-- Classified container status (spec §3 `ContainerStatus`). -/
inductive ContainerStatus
  | RunningGPU
  | RunningCPU
  | Stopped
  | NotFound
  | Unavailable
  | Error
deriving DecidableEq

/-- State of the tray actions and status line touched by `update_status`. -/
structure TrayState where
  docker_available : Bool
  start_enabled : Bool
  stop_enabled : Bool
  start_visible : Bool
  stop_visible : Bool
  chat_enabled : Bool
  pull_enabled : Bool
  statusText : String
  icon : String
  status : ContainerStatus
deriving DecidableEq

/-- Parse of the inspection stdout:
`output = result.stdout.strip().split("|")`;
`is_running = output[0] == "true"`;
`runtime = output[1] if len(output) > 1 else ""`;
`device_requests = output[2] if len(output) > 2 else "null"`. -/
def parseInspect (stdout : String) : Bool × String × String :=
  let output : List String := (pySplitChar '|' (pyStrip stdout).data).map (fun l => ⟨l⟩)
  (output.getD 0 "" == "true", output.getD 1 "", output.getD 2 "null")

/-- GPU-mode test:
`runtime == "nvidia" or (device_requests != "null" and "gpu" in device_requests.lower())`. -/
def gpuMode (runtime device_requests : String) : Bool :=
  runtime == "nvidia" ||
    (device_requests != "null" && pyContains (pyLower device_requests) "gpu")

/-- Effect of the `try` body of `update_status` once `subprocess.run`
returned: parse the stdout and either take the running (GPU/CPU) branch
or the stopped branch.  The exit code of the inspection is never
consulted by the source. -/
def applyRan (st : TrayState) (stdout : String) : TrayState :=
  let p := parseInspect stdout
  if p.1 then
    let gpu := gpuMode p.2.1 p.2.2
    let st1 :=
      if gpu then
        { st with icon := "tray_chat_ai_gpu_running.png",
                  start_enabled := true, stop_enabled := true }
      else
        { st with icon := "tray_chat_ai_cpu_running.png" }
    { st1 with
        statusText := "Ollama: Running (" ++ (if gpu then "GPU 🚀" else "CPU") ++ ")",
        status := if gpu then .RunningGPU else .RunningCPU,
        start_visible := false, stop_visible := true,
        chat_enabled := true, pull_enabled := true }
  else
    { st with icon := "tray_chat_ai_not_running.png",
              statusText := "LLM Server: Stopped ❌",
              status := .Stopped,
              start_visible := true, stop_visible := false,
              start_enabled := true, stop_enabled := false,
              chat_enabled := false, pull_enabled := false }

/-- One poll tick of `update_status`: the early return when Docker is
unavailable, then the `try` body and its `except` handlers. -/
def tick (st : TrayState) (ev : ProbeEvent) : TrayState :=
  if st.docker_available then
    match ev with
    | .ran _ out _ => applyRan st out
    | .fileNotFound =>
        { st with statusText := "LLM Server: Docker Command Not Found",
                  status := .Unavailable,
                  start_enabled := false, stop_enabled := false,
                  chat_enabled := false, pull_enabled := false,
                  icon := "llm_tray_error.png",
                  docker_available := false }
    | .calledProcessError _ =>
        { st with statusText := "LLM Server: Not Found",
                  status := .NotFound,
                  start_visible := true, stop_visible := false,
                  start_enabled := true, stop_enabled := false,
                  pull_enabled := false, chat_enabled := false,
                  icon := "tray_chat_ai_not_running.png" }
    | .dockerException =>
        { st with statusText := "LLM Server: Docker Daemon Down",
                  status := .Unavailable,
                  start_enabled := false, stop_enabled := false,
                  chat_enabled := false, pull_enabled := false,
                  icon := "llm_tray_error.png",
                  docker_available := false }
    | .unexpected =>
        { st with statusText := "LLM Server: Error",
                  status := .Error,
                  start_enabled := false, stop_enabled := false,
                  pull_enabled := false, chat_enabled := false,
                  icon := "llm_tray_error.png" }
  else
    { st with statusText := "LLM Server: Docker Not Available",
              status := .Unavailable,
              start_enabled := false, stop_enabled := false,
              chat_enabled := false, pull_enabled := false }

/-- A concrete tray state with Docker available, used to instantiate
universally quantified theorems. -/
def exampleState : TrayState :=
  { docker_available := true,
    start_enabled := false, stop_enabled := false,
    start_visible := true, stop_visible := true,
    chat_enabled := false, pull_enabled := false,
    statusText := "Checking status...",
    icon := "tray_chat_ai_default.png",
    status := .Unavailable }

/- ## Chat transcript and prompt serialization
(`send_prompt_and_show_result`) -/

/-- Role of one chat turn. -/
inductive Role
  | User
  | Assistant
deriving DecidableEq

/-- String used for a role in the serialized prompt. -/
def roleName : Role → String
  | .User => "User"
  | .Assistant => "Assistant"

/-- One entry of `dialog.chat_history`. -/
structure ChatMsg where
  role : Role
  content : String
deriving DecidableEq

/-- The contextual-prompt construction of `send_prompt_and_show_result`:
an accumulating loop over the history followed by the new user line and
the trailing `Assistant:` cue. -/
def full_prompt (hist : List ChatMsg) (prompt : String) : String :=
  (hist.foldl (fun acc m => acc ++ (roleName m.role ++ ": " ++ m.content ++ "\n")) "")
    ++ ("User: " ++ prompt ++ "\nAssistant:")

/- ## Prompt dispatch (`send_promt_to_ollama`)

The method returns a string on every path (error paths return strings
beginning with `Error:`; no path returns `None`).  External effects are
recorded as a trace: the Docker-API container lookup and each
`docker exec ... ollama run <model>` runner invocation. -/

/-- Externally visible command issued by the dispatcher. -/
inductive ExtCall
  | containerGet
  | runnerRun (model : String)
deriving DecidableEq

/-- Outcome of `client.containers.get(name)` inside the dispatcher. -/
inductive LookupResult
  | found (status : String)
  | notFound
  | apiError (msg : String)
deriving DecidableEq

/-- Outcome of one `subprocess.run(["docker","exec","-i",...,"ollama","run",model],
input=prompt, capture_output=True, text=True, check=True)` call. -/
inductive RunOutcome
  | ok (stdout : String)
  | fail (stderr : String)
  | cmdMissing
deriving DecidableEq

/-- Whether a runner invocation completed with exit code 0. -/
def RunOutcome.isOk : RunOutcome → Bool
  | .ok _ => true
  | _ => false

/-- Captured stdout of a successful runner invocation. -/
def RunOutcome.stdout : RunOutcome → String
  | .ok out => out
  | _ => ""

/-- Environment of one dispatcher call: Docker availability, result of
the container lookup, the selected-model list and the behaviour of the
runner for each model. -/
structure DispatchEnv where
  docker_available : Bool
  lookup : LookupResult
  selected : List String
  runner : String → RunOutcome

/-- Label-and-strip format applied to one model's captured output inside
the loop: a `**Model: <m>**` header plus two trailing newlines exactly
when more than one model is selected. -/
def modelPiece (multi : Bool) (m : String) (out : String) : String :=
  if multi then "**Model: " ++ m ++ "**\n" ++ stripAnsi out ++ "\n\n"
  else stripAnsi out

/-- The `for model in models_to_run` loop: sequential runner calls,
accumulating output; `check=True` makes a non-zero exit raise
`subprocess.CalledProcessError`, aborting the loop into the matching
handler, and a missing `docker` binary raises `FileNotFoundError`.
Returns the loop result (`ok` accumulated output or the handler's error
string) together with the models actually invoked, in order. -/
def runModelsLoop (runner : String → RunOutcome) (multi : Bool) (acc : String) :
    List String → Except String String × List String
  | [] => (.ok acc, [])
  | m :: rest =>
    match runner m with
    | .ok out =>
        let r := runModelsLoop runner multi (acc ++ modelPiece multi m out) rest
        (r.1, m :: r.2)
    | .fail stderr =>
        (.error ("Error: LLM server command failed: " ++ stripAnsi stderr), [m])
    | .cmdMissing =>
        (.error "Error: Docker command not found.", [m])

/-- `send_promt_to_ollama`: returns the string handed back to the chat
dialog together with the trace of external commands issued, in order. -/
def send_promt_to_ollama (env : DispatchEnv) : String × List ExtCall :=
  if !env.docker_available then
    ("Error: Docker is not available.", [])
  else
    match env.lookup with
    | .notFound => ("Error: LLM server container not found.", [.containerGet])
    | .apiError msg => ("Error: Docker API error: " ++ msg, [.containerGet])
    | .found status =>
      if status == "running" then
        if env.selected.isEmpty then
          ("Error: No model selected. Please select a model.", [.containerGet])
        else
          let multi := decide (env.selected.length > 1)
          let r := runModelsLoop env.runner multi "" env.selected
          (match r.1 with
            | .ok out => out
            | .error e => e,
           .containerGet :: r.2.map ExtCall.runnerRun)
      else
        ("Error: LLM server container is not running.", [.containerGet])

/- ## View and history update after a dispatch
(`send_prompt_and_show_result`, lines after the dispatch call)

`add_bubble` appends a `(text, role)` pair to the rendered view.  The
dispatch result is a Python string tested for truthiness (`if result:`),
i.e. compared against the empty string. -/

/-- Result of one send: the updated `dialog.chat_history` and the bubbles
appended to the view during this send, in order. -/
def chatAfterSend (hist : List ChatMsg) (prompt : String) (result : String) :
    List ChatMsg × List (String × String) :=
  if result ≠ "" then
    (hist ++ [⟨.User, prompt⟩, ⟨.Assistant, pyStrip result⟩],
     [(prompt, "User"), (result, "Assistant")])
  else
    (hist, [(prompt, "User"), ("Error: Failed to get response.", "Assistant")])

/-- Whole send flow: trim the input, return unchanged on empty input,
otherwise serialize, dispatch and update history and view. -/
def send_prompt_and_show_result (env : DispatchEnv) (hist : List ChatMsg)
    (input : String) : List ChatMsg × List (String × String) :=
  let prompt := pyStrip input
  if prompt = "" then (hist, [])
  else chatAfterSend hist prompt (send_promt_to_ollama env).1

/- ## Settings store (`read_settings` / `save_settings`) and the
selection update of `remove_language_model_dialog` -/

/-- Value stored under one settings key. -/
inductive SVal
  | str (s : String)
  | strList (l : List String)
  | num (n : Int)
deriving DecidableEq

/-- Settings document: ordered key-value pairs (a JSON object). -/
abbrev SettingsDoc := List (String × SVal)

/-- Lookup of a settings key. -/
def getKey (doc : SettingsDoc) (k : String) : Option SVal :=
  match doc with
  | [] => none
  | (k0, v) :: rest => if k0 = k then some v else getKey rest k

/-- Assignment `settings[k] = v` on a JSON object: overwrite in place or
append. -/
def setKey (doc : SettingsDoc) (k : String) (v : SVal) : SettingsDoc :=
  match doc with
  | [] => [(k, v)]
  | (k0, v0) :: rest => if k0 = k then (k, v) :: rest else (k0, v0) :: setKey rest k v

/-- Post-confirmation selection update of `remove_language_model_dialog`:
`if self.selected_ollama_model and item in self.selected_ollama_model:`
then `self.selected_ollama_model.remove(item)` (Python `list.remove`
deletes the first occurrence) and the updated list is written to the
`selected_ollama_model` key and saved. -/
def removeSelectedUpdate (sel : List String) (doc : SettingsDoc) (item : String) :
    List String × SettingsDoc :=
  if !sel.isEmpty ∧ item ∈ sel then
    let sel2 := sel.erase item
    (sel2, setKey doc "selected_ollama_model" (.strList sel2))
  else
    (sel, doc)

/-- On-disk state of `settings.json` as seen by `read_settings`. -/
inductive SettingsFile
  | absent
  | unreadable
  | invalidJson
  | valid (doc : SettingsDoc)

/-- Exception raised while reading or writing the settings file. -/
inductive PyExc
  | jsonDecodeError
  | otherExc
deriving DecidableEq

/-- Body of `read_settings` before exception handling: the existence
check returns `{}` without raising; opening an unreadable file raises an
OS error; invalid JSON raises `json.JSONDecodeError`. -/
def read_settings_raw : SettingsFile → Except PyExc SettingsDoc
  | .absent => .ok []
  | .unreadable => .error .otherExc
  | .invalidJson => .error .jsonDecodeError
  | .valid doc => .ok doc

/-- `read_settings`: the raw body wrapped in the two handlers, each of
which logs and returns `{}`. -/
def read_settings (f : SettingsFile) : SettingsDoc :=
  match read_settings_raw f with
  | .ok doc => doc
  | .error .jsonDecodeError => []
  | .error .otherExc => []

/-- Outcome of the `json.dump` write inside `save_settings`. -/
inductive WriteOutcome
  | written
  | failed

/-- Body of `save_settings` before exception handling. -/
def save_settings_raw : WriteOutcome → Except PyExc Unit
  | .written => .ok ()
  | .failed => .error .otherExc

/-- `save_settings`: the write wrapped in a broad handler that only
logs; returns whether the write succeeded, raising nothing either way. -/
def save_settings (w : WriteOutcome) : Bool :=
  match save_settings_raw w with
  | .ok _ => true
  | .error _ => false

/- ## Bubble rendering (`add_bubble`)

`add_bubble` normalizes `\r\n` to `\n`, splits the text with
`re.split` on the capturing pattern of a non-greedy triple-backquote
fence (DOTALL), renders fence parts as preformatted blocks (stripping an
optional leading language tag) and renders the other parts escaped, with
an unwrap heuristic and bold markup for assistant turns. -/

/-- Python `text.replace("\r\n", "\n")`, specialised: leftmost,
non-overlapping, no rescan of the replacement. -/
def normCRLF : List Char → List Char
  | [] => []
  | [c] => [c]
  | c :: d :: rest2 =>
      if c = '\r' ∧ d = '\n' then '\n' :: normCRLF rest2
      else c :: normCRLF (d :: rest2)

/-- Whether the first three characters are the fence delimiter. -/
def startsTriple : List Char → Bool
  | c1 :: c2 :: c3 :: _ => c1 = btick && c2 = btick && c3 = btick
  | _ => false

/-- Whether any position starts the fence delimiter. -/
def hasTriple : List Char → Bool
  | [] => false
  | c :: rest => startsTriple (c :: rest) || hasTriple rest

/-- Split at the first occurrence of the fence delimiter, returning the
characters before it and the characters after it; `none` when there is
no occurrence. -/
def splitTriple : List Char → Option (List Char × List Char)
  | [] => none
  | c :: rest =>
    if startsTriple (c :: rest) then some ([], rest.drop 2)
    else (splitTriple rest).map (fun p => (c :: p.1, p.2))

/-- Fuel-driven model of `re.split` with the capturing non-greedy fence
pattern: alternating text and delimiter-included match parts.  A match
needs an opening fence and a closing fence; by disjointness of
overlapping fences, if the first fence has no later closing fence then
no match exists anywhere, which the second `none` branch implements.
Fuel is the input length; each match consumes at least six characters. -/
def reSplitAux : Nat → List Char → List (List Char)
  | 0, l => [l]
  | Nat.succ n, l =>
    match splitTriple l with
    | none => [l]
    | some (a, r) =>
      match splitTriple r with
      | none => [l]
      | some (c, d) => a :: (tripleL ++ c ++ tripleL) :: reSplitAux n d

/-- The part list `re.split(r'(` fence `.*?` fence `)', text, DOTALL)`. -/
def reSplitFenced (s : String) : List String :=
  (reSplitAux s.data.length s.data).map (fun l => (⟨l⟩ : String))

/-- Python `html.escape(s, quote=False)`: three sequential replaces. -/
def htmlEscape (s : String) : String :=
  pyReplace (pyReplace (pyReplace s "&" "&amp;") "<" "&lt;") ">" "&gt;"

/-- The fixed markup wrapped around an escaped code segment. -/
def codeBlockHtml (escaped : String) : String :=
  "<br><table border=\"0\" cellpadding=\"10\" bgcolor=\"#2b2b2b\" width=\"100%\"><tr><td><pre style=\"color: #f8f8f2;\">"
    ++ escaped ++ "</pre></td></tr></table><br>"

/-- Python slice `part[3:-3]`. -/
def sliceInner (part : String) : String :=
  ⟨(part.data.take (part.data.length - 3)).drop 3⟩

/-- Character class of the language-tag regex: letters, digits, plus,
minus, hash. -/
def isLangTagChar (c : Char) : Bool :=
  c.isAlphanum || c = '+' || c = '-' || c = '#'

/-- Stripping of a leading language identifier from fenced content:
`re.match` of optional whitespace, one or more tag characters, then a
newline; on a match the whole matched prefix is dropped.  The three
character classes are disjoint, so the match is deterministic. -/
def stripLangTag (content : String) : String :=
  let r1 := content.data.dropWhile isPySpace
  let tag := r1.takeWhile isLangTagChar
  let r2 := r1.dropWhile isLangTagChar
  if tag.isEmpty then content
  else
    match r2 with
    | c :: rest => if c = '\n' then ⟨rest⟩ else content
    | [] => content

/-- Rendering of a fence part: drop the delimiters, strip an optional
language tag, escape, and wrap in the preformatted-block markup. -/
def renderCodePart (part : String) : String :=
  codeBlockHtml (htmlEscape (stripLangTag (sliceInner part)))

/-- The hard-wrap unwrap heuristic applied to assistant text. -/
def unwrapHeuristic (p : String) : String :=
  pyReplace (pyReplace (pyReplace p "\n\n" "[[PARAGRAPH]]") "\n" " ") "[[PARAGRAPH]]" "\n\n"

/-- After an opening `**`, find the matching close: the nearest later
`**` with no newline in between (the dot of the non-greedy group does
not match newlines).  Returns the bold content and the characters after
the closing `**`. -/
def findBoldClose : List Char → Option (List Char × List Char)
  | [] => none
  | c :: rest =>
    if c = '*' ∧ rest.take 1 = ['*'] then some ([], rest.drop 1)
    else if c = '\n' then none
    else (findBoldClose rest).map (fun p => (c :: p.1, p.2))

/-- Fuel-driven model of the bold substitution regex replacing matched
`**x**` spans with emphasis markup.  Fuel is the input length. -/
def boldAux : Nat → List Char → List Char
  | 0, l => l
  | _, [] => []
  | Nat.succ n, c :: rest =>
    if c = '*' ∧ rest.take 1 = ['*'] then
      match findBoldClose (rest.drop 1) with
      | some (content, after) =>
          ("<b>".data ++ content ++ "</b>".data) ++ boldAux n after
      | none => c :: boldAux n rest
    else c :: boldAux n rest

/-- The assistant bold substitution on strings. -/
def boldSub (s : String) : String := ⟨boldAux s.data.length s.data⟩

/-- Rendering of a non-fence part: the unwrap heuristic for assistant
turns when the whole text has no fence, then escaping with newlines as
`<br>`, then bold markup for assistant turns. -/
def renderTextPart (role : String) (text part : String) : String :=
  let part1 :=
    if role == "Assistant" && !(pyContains text "```") then unwrapHeuristic part
    else part
  let esc := pyReplace (htmlEscape part1) "\n" "<br>"
  if role == "Assistant" then boldSub esc else esc

/-- Dispatch on one part of the split:
`if part.startswith(fence) and part.endswith(fence)` render as code,
else render as text. -/
def renderPart (role text part : String) : String :=
  if pyStartsWith part "```" && pyEndsWith part "```" then renderCodePart part
  else renderTextPart role text part

/-- The rendered part list of `add_bubble`: normalize newlines, split on
fences, and render each part according to whether it both starts and
ends with the fence delimiter. -/
def addBubbleParts (role rawText : String) : List String :=
  let text : String := ⟨normCRLF rawText.data⟩
  (reSplitFenced text).map (renderPart role text)

/-- The final markup string assigned to the bubble label. -/
def addBubbleHtml (role rawText : String) : String :=
  String.join (addBubbleParts role rawText)

/- ## Helper notions for the theorems -/

/-- Concatenation of a list of strings, in order. -/
def concatAll : List String → String
  | [] => ""
  | s :: rest => s ++ concatAll rest

/-- The serialization loop of `full_prompt` is concatenation of the
per-turn lines. -/
theorem foldl_append_concatAll (f : ChatMsg → String) (l : List ChatMsg) (acc : String) :
    l.foldl (fun a m => a ++ f m) acc = acc ++ concatAll (l.map f) := by
  induction l generalizing acc with
  | nil => simp [concatAll]
  | cons m rest ih => simp [concatAll, ih, String.append_assoc]

/-- Lookup after assignment returns the assigned value. -/
theorem getKey_setKey (doc : SettingsDoc) (k : String) (v : SVal) :
    getKey (setKey doc k v) k = some v := by
  induction doc with
  | nil => simp [setKey, getKey]
  | cons kv rest ih =>
    by_cases h : kv.1 = k
    · simp [setKey, getKey, h]
    · simp [setKey, getKey, h, ih]

/- ## Claims -/

/-- Claim C1 (code bug): a poll tick where the inspection command runs
but exits non-zero — the configured container does not exist, `docker
inspect` prints nothing to stdout and exits 1 — is handled by the `try`
body, not by the `except subprocess.CalledProcessError` handler, because
`subprocess.run` is invoked without `check=True`.  The empty stdout
parses as not-running, so the code classifies the missing container as
Stopped (status line `LLM Server: Stopped ❌`), not as the distinct
NotFound that the spec (and the dead handler's own comment) describe;
the claimed action set (start on, stop off, chat off, pull off) does
hold on this path. -/
theorem claim1_missing_container_classified_stopped :
    (tick exampleState (probeEventOf (.exited 1 "" "Error: No such object: ollama"))).status
        = ContainerStatus.Stopped
    ∧ (tick exampleState (probeEventOf (.exited 1 "" "Error: No such object: ollama"))).status
        ≠ ContainerStatus.NotFound
    ∧ (tick exampleState (probeEventOf (.exited 1 "" "Error: No such object: ollama"))).statusText
        = "LLM Server: Stopped ❌"
    ∧ (tick exampleState (probeEventOf (.exited 1 "" "Error: No such object: ollama"))).start_enabled
        = true
    ∧ (tick exampleState (probeEventOf (.exited 1 "" "Error: No such object: ollama"))).stop_enabled
        = false
    ∧ (tick exampleState (probeEventOf (.exited 1 "" "Error: No such object: ollama"))).chat_enabled
        = false
    ∧ (tick exampleState (probeEventOf (.exited 1 "" "Error: No such object: ollama"))).pull_enabled
        = false := by
  decide

/-- Claim C3: inspection output `true|nvidia|null` classifies as
RunningGPU, `true||null` as RunningCPU and `false||null` as Stopped, on
any tray state in which Docker is available. -/
theorem claim3_three_field_classification (st : TrayState)
    (h : st.docker_available = true) :
    (tick st (.ran 0 "true|nvidia|null" "")).status = ContainerStatus.RunningGPU
    ∧ (tick st (.ran 0 "true||null" "")).status = ContainerStatus.RunningCPU
    ∧ (tick st (.ran 0 "false||null" "")).status = ContainerStatus.Stopped := by
  unfold tick
  rw [h]
  exact ⟨rfl, rfl, rfl⟩

/-- Witness for C3 at the concrete example state. -/
theorem claim3_three_field_classification_witness :
    (tick exampleState (.ran 0 "true|nvidia|null" "")).status = ContainerStatus.RunningGPU
    ∧ (tick exampleState (.ran 0 "true||null" "")).status = ContainerStatus.RunningCPU
    ∧ (tick exampleState (.ran 0 "false||null" "")).status = ContainerStatus.Stopped :=
  claim3_three_field_classification exampleState rfl

/-- Claim C4: for every history and non-empty user input, the serialized
prompt is one `Role: content` line terminated by a newline per prior
turn, in order, followed by `User: <input>`, a newline and the trailing
`Assistant:` cue. -/
theorem claim4_prompt_serialization (hist : List ChatMsg) (prompt : String)
    (_hne : prompt ≠ "") :
    full_prompt hist prompt
      = concatAll (hist.map (fun m => roleName m.role ++ ": " ++ m.content ++ "\n"))
          ++ ("User: " ++ prompt ++ "\nAssistant:") := by
  unfold full_prompt
  rw [foldl_append_concatAll]
  simp

/-- Witness for C4 at the transcript of the claim: serializing
[(User,hi),(Assistant,hello)] plus input `how are you` yields exactly the
claimed string. -/
theorem claim4_prompt_serialization_witness :
    full_prompt [⟨.User, "hi"⟩, ⟨.Assistant, "hello"⟩] "how are you"
      = "User: hi\nAssistant: hello\nUser: how are you\nAssistant:" := by
  have h := claim4_prompt_serialization [⟨.User, "hi"⟩, ⟨.Assistant, "hello"⟩]
    "how are you" (by decide)
  rw [h]
  decide

/-- Claim C9, counterexample: when the selection contains the removed
model twice — duplicates are representable, since the selection list is
loaded verbatim from `settings.json` — Python `list.remove` deletes only
the first occurrence, so the model is NOT removed from the in-memory
selection. -/
theorem claim9_duplicate_selection_kept :
    (removeSelectedUpdate ["m1", "m1"] [] "m1").1 = ["m1"]
    ∧ "m1" ∈ (removeSelectedUpdate ["m1", "m1"] [] "m1").1 := by
  decide

/-- Claim C9 as amended: confirming removal of a selected model erases
its first occurrence from the in-memory selection, persists exactly the
updated list under `selected_ollama_model`, and leaves every other entry
in its original order; when the selection has no duplicates the model is
gone entirely and the result is the order-preserving filter of the
original selection. -/
theorem claim9_remove_selected_model (sel : List String) (doc : SettingsDoc)
    (item : String) (hmem : item ∈ sel) :
    (removeSelectedUpdate sel doc item).1 = sel.erase item
    ∧ getKey (removeSelectedUpdate sel doc item).2 "selected_ollama_model"
        = some (.strList (sel.erase item))
    ∧ (sel.Nodup → item ∉ sel.erase item ∧ sel.erase item = sel.filter (· != item)) := by
  have hne : sel.isEmpty = false := by
    cases sel with
    | nil => cases hmem
    | cons a rest => rfl
  refine ⟨?_, ?_, ?_⟩
  · simp [removeSelectedUpdate, hne, hmem]
  · simp only [removeSelectedUpdate, hne, hmem]
    simp [getKey_setKey]
  · intro hnd
    exact ⟨hnd.not_mem_erase, hnd.erase_eq_filter item⟩

/-- Witness for C9 on a three-model selection. -/
theorem claim9_remove_selected_model_witness :
    (removeSelectedUpdate ["a", "b", "c"] [] "b").1 = ["a", "c"]
    ∧ getKey (removeSelectedUpdate ["a", "b", "c"] [] "b").2 "selected_ollama_model"
        = some (.strList ["a", "c"]) := by
  have h := claim9_remove_selected_model ["a", "b", "c"] [] "b" (by decide)
  exact ⟨by rw [h.1]; decide, by rw [h.2.1]; decide⟩

/-- Claim C10: settings reading is total — the absent-file early return
and both exception handlers produce the empty document, a valid document
is returned as-is, and a write failure inside `save_settings` is
swallowed (logged, not propagated). -/
theorem claim10_settings_total (f : SettingsFile) (w : WriteOutcome) :
    (∀ e : PyExc, read_settings_raw f = .error e → read_settings f = [])
    ∧ read_settings .absent = []
    ∧ (∀ doc : SettingsDoc, f = .valid doc → read_settings f = doc)
    ∧ (∀ e : PyExc, save_settings_raw w = .error e → save_settings w = false) := by
  refine ⟨?_, rfl, ?_, ?_⟩
  · intro e he
    cases e <;> simp [read_settings, he]
  · intro doc hf
    subst hf
    rfl
  · intro e he
    simp [save_settings, he]

/-- Witness for C10: an invalid-JSON settings file reads as the empty
document and a failed write is reported as swallowed. -/
theorem claim10_settings_total_witness :
    read_settings .invalidJson = [] ∧ save_settings .failed = false :=
  ⟨(claim10_settings_total .invalidJson .failed).1 .jsonDecodeError rfl,
   (claim10_settings_total .invalidJson .failed).2.2.2 .otherExc rfl⟩

/-- Claim C2, counterexample: after a tick classifying RunningGPU the
source explicitly re-enables the (hidden) start action
(`self.start_action.setEnabled(True)` in the GPU branch), so the start
action is enabled while the status is neither Stopped nor NotFound —
refuting the claimed equivalence. -/
theorem claim2_gpu_tick_start_enabled :
    (tick exampleState (.ran 0 "true|nvidia|null" "")).status = ContainerStatus.RunningGPU
    ∧ ¬ ((tick exampleState (.ran 0 "true|nvidia|null" "")).start_enabled = true
          ↔ ((tick exampleState (.ran 0 "true|nvidia|null" "")).status = ContainerStatus.Stopped
              ∨ (tick exampleState (.ran 0 "true|nvidia|null" "")).status = ContainerStatus.NotFound)) := by
  decide

/-- Claim C2 as amended: after every poll tick the stop action is
enabled only if the classified status is RunningCPU or RunningGPU, and
the start action is enabled whenever the classified status is Stopped or
NotFound; the converse directions fail, because a RunningGPU tick
re-enables the hidden start action and a RunningCPU tick leaves both
enablement flags at their previous values. -/
theorem claim2_enablement_after_tick (st : TrayState) (ev : ProbeEvent) :
    ((tick st ev).stop_enabled = true →
        (tick st ev).status = ContainerStatus.RunningCPU
        ∨ (tick st ev).status = ContainerStatus.RunningGPU)
    ∧ (((tick st ev).status = ContainerStatus.Stopped
        ∨ (tick st ev).status = ContainerStatus.NotFound) →
        (tick st ev).start_enabled = true) := by
  unfold tick
  cases hA : st.docker_available with
  | false => simp
  | true =>
    cases ev with
    | ran c out err =>
      simp only [if_true]
      unfold applyRan
      by_cases h1 : (parseInspect out).1 = true
      · by_cases h2 : gpuMode (parseInspect out).2.1 (parseInspect out).2.2 = true
        · simp [h1, h2]
        · simp [h1, h2]
      · simp [h1]
    | fileNotFound => simp
    | calledProcessError e => simp
    | dockerException => simp
    | unexpected => simp

/-- Witness for C2 (amended) at a Stopped tick: the start action comes
out enabled. -/
theorem claim2_enablement_after_tick_witness :
    (tick exampleState (.ran 0 "false||null" "")).start_enabled = true :=
  (claim2_enablement_after_tick exampleState (.ran 0 "false||null" "")).2
    (Or.inl (by decide))

/-- Claim C5, counterexample: a failed backend dispatch (the runner
exits non-zero) makes `send_promt_to_ollama` return a non-empty error
string, which is truthy, so the send flow appends the user turn and the
error string to the transcript history and never shows the literal
placeholder — refuting both halves of the claim at this input. -/
theorem claim5_failed_dispatch_appends_error :
    (send_promt_to_ollama ⟨true, .found "running", ["m1"], fun _ => .fail "boom"⟩).1
        = "Error: LLM server command failed: boom"
    ∧ (send_prompt_and_show_result
          ⟨true, .found "running", ["m1"], fun _ => .fail "boom"⟩ [] "hi").1
        ≠ ([] : List ChatMsg)
    ∧ ("Error: Failed to get response.", "Assistant")
        ∉ (send_prompt_and_show_result
            ⟨true, .found "running", ["m1"], fun _ => .fail "boom"⟩ [] "hi").2 := by
  decide

/-- Claim C5 as amended: the literal placeholder turn is shown — with
the history left unchanged — exactly when the dispatch returns the empty
string; every non-empty result, including the `Error:`-prefixed strings
returned on failed dispatches, is displayed as the assistant bubble and
appended to the history as the user turn plus the trimmed result. -/
theorem claim5_history_truthiness (env : DispatchEnv) (hist : List ChatMsg)
    (input : String) (hne : pyStrip input ≠ "") :
    ((send_promt_to_ollama env).1 ≠ "" →
        send_prompt_and_show_result env hist input
          = (hist ++ [⟨.User, pyStrip input⟩,
                      ⟨.Assistant, pyStrip (send_promt_to_ollama env).1⟩],
             [(pyStrip input, "User"), ((send_promt_to_ollama env).1, "Assistant")]))
    ∧ ((send_promt_to_ollama env).1 = "" →
        send_prompt_and_show_result env hist input
          = (hist, [(pyStrip input, "User"),
                    ("Error: Failed to get response.", "Assistant")])) := by
  constructor <;> intro h <;>
    simp [send_prompt_and_show_result, chatAfterSend, hne, h]

/-- Witness for C5 (amended) at a failing dispatch environment. -/
theorem claim5_history_truthiness_witness :
    send_prompt_and_show_result
        ⟨true, .found "running", ["m1"], fun _ => .fail "x"⟩ [] "hi"
      = ([⟨.User, "hi"⟩, ⟨.Assistant, "Error: LLM server command failed: x"⟩],
         [("hi", "User"), ("Error: LLM server command failed: x", "Assistant")]) := by
  have h := (claim5_history_truthiness
      ⟨true, .found "running", ["m1"], fun _ => .fail "x"⟩ [] "hi" (by decide)).1 (by decide)
  rw [h]
  decide

/-- Claim C6, counterexample: dispatch with an empty selection and a
running container does return the no-model error, but only after issuing
the Docker container lookup, so an external command is issued before the
error — refuting the no-external-command part of the claim. -/
theorem claim6_lookup_precedes_no_model_error :
    send_promt_to_ollama ⟨true, .found "running", [], fun _ => .ok ""⟩
      = ("Error: No model selected. Please select a model.", [.containerGet])
    ∧ ([ExtCall.containerGet] : List ExtCall) ≠ [] := by
  decide

/-- Claim C6 as amended: with Docker available and the container lookup
reporting a running container, a dispatch while the selection is empty
returns the no-model error after exactly the container lookup and issues
no runner execution; when the container is missing or not running, the
corresponding container error preempts the no-model check. -/
theorem claim6_no_model_selected (env : DispatchEnv)
    (hd : env.docker_available = true) (hl : env.lookup = .found "running")
    (hs : env.selected = []) :
    (send_promt_to_ollama env).1 = "Error: No model selected. Please select a model."
    ∧ (send_promt_to_ollama env).2 = [.containerGet]
    ∧ ∀ m : String, ExtCall.runnerRun m ∉ (send_promt_to_ollama env).2 := by
  refine ⟨?_, ?_, ?_⟩ <;> simp [send_promt_to_ollama, hd, hl, hs]

/-- Witness for C6 (amended) at a concrete environment. -/
theorem claim6_no_model_selected_witness :
    (send_promt_to_ollama ⟨true, .found "running", [], fun _ => .ok "y"⟩).1
        = "Error: No model selected. Please select a model."
    ∧ (send_promt_to_ollama ⟨true, .found "running", [], fun _ => .ok "y"⟩).2
        = [.containerGet] :=
  ⟨(claim6_no_model_selected ⟨true, .found "running", [], fun _ => .ok "y"⟩ rfl rfl rfl).1,
   (claim6_no_model_selected ⟨true, .found "running", [], fun _ => .ok "y"⟩ rfl rfl rfl).2.1⟩

/-- The model loop, when every runner invocation succeeds, produces the
concatenation of the per-model pieces and invokes each model once, in
order. -/
theorem runModelsLoop_all_ok (runner : String → RunOutcome) (multi : Bool)
    (ms : List String) (h : ∀ m ∈ ms, (runner m).isOk = true) (acc : String) :
    runModelsLoop runner multi acc ms
      = (.ok (acc ++ concatAll (ms.map (fun m => modelPiece multi m (runner m).stdout))), ms) := by
  induction ms generalizing acc with
  | nil => simp [runModelsLoop, concatAll]
  | cons m rest ih =>
    have hm : (runner m).isOk = true := h m (List.mem_cons_self m rest)
    cases hr : runner m with
    | ok out =>
      have hrest : ∀ x ∈ rest, (runner x).isOk = true :=
        fun x hx => h x (List.mem_cons_of_mem m hx)
      simp [runModelsLoop, hr, ih hrest, concatAll, String.append_assoc,
        RunOutcome.stdout]
    | fail e =>
      rw [hr] at hm
      simp [RunOutcome.isOk] at hm
    | cmdMissing =>
      rw [hr] at hm
      simp [RunOutcome.isOk] at hm

/-- Claim C7: with at least one selected model and a running container,
and every runner invocation succeeding, the dispatcher invokes the
runner exactly once per selected model, sequentially in list order, and
returns the concatenation of the per-model outputs with ANSI escapes
stripped, each prefixed with a `**Model: <m>**` label exactly when more
than one model is selected. -/
theorem claim7_per_model_dispatch (env : DispatchEnv)
    (hd : env.docker_available = true) (hl : env.lookup = .found "running")
    (hne : env.selected ≠ [])
    (hok : ∀ m ∈ env.selected, (env.runner m).isOk = true) :
    (send_promt_to_ollama env).1
      = concatAll (env.selected.map (fun m =>
          if env.selected.length > 1 then
            "**Model: " ++ m ++ "**\n" ++ stripAnsi (env.runner m).stdout ++ "\n\n"
          else stripAnsi (env.runner m).stdout))
    ∧ (send_promt_to_ollama env).2
      = .containerGet :: env.selected.map ExtCall.runnerRun := by
  have hie : env.selected.isEmpty = false := by
    cases hse : env.selected with
    | nil => exact absurd hse hne
    | cons a rest => rfl
  have hloop := runModelsLoop_all_ok env.runner (decide (env.selected.length > 1))
    env.selected hok ""
  constructor <;>
    simp [send_promt_to_ollama, hd, hl, hie, hloop, modelPiece, decide_eq_true_eq]

/-- Witness for C7 on two models, showing the per-model labels and
concatenation. -/
theorem claim7_per_model_dispatch_witness :
    (send_promt_to_ollama ⟨true, .found "running", ["m1", "m2"], fun m => .ok (m ++ "!")⟩).1
        = "**Model: m1**\nm1!\n\n**Model: m2**\nm2!\n\n"
    ∧ (send_promt_to_ollama ⟨true, .found "running", ["m1", "m2"], fun m => .ok (m ++ "!")⟩).2
        = [.containerGet, .runnerRun "m1", .runnerRun "m2"] := by
  have h := claim7_per_model_dispatch
    ⟨true, .found "running", ["m1", "m2"], fun m => .ok (m ++ "!")⟩
    rfl rfl (by decide) (by decide)
  exact ⟨by rw [h.1]; decide, by rw [h.2]; decide⟩

/- ## Lemmas about the fence split, toward claim C8 -/

/-- A fence start is preserved by appending on the right. -/
theorem startsTriple_append (l b : List Char) (h : startsTriple l = true) :
    startsTriple (l ++ b) = true := by
  match l with
  | [] => simp [startsTriple] at h
  | [c1] => simp [startsTriple] at h
  | [c1, c2] => simp [startsTriple] at h
  | c1 :: c2 :: c3 :: rest => simpa [startsTriple] using h

/-- A fence survives appending on the right. -/
theorem hasTriple_mono (a b : List Char) (h : hasTriple a = true) :
    hasTriple (a ++ b) = true := by
  induction a with
  | nil => simp [hasTriple] at h
  | cons c a2 ih =>
    rw [List.cons_append]
    simp only [hasTriple, Bool.or_eq_true] at h ⊢
    rcases h with h | h
    · left
      have h2 := startsTriple_append (c :: a2) b h
      rwa [List.cons_append] at h2
    · right
      exact ih h

/-- A fence-free list stays fence-free when truncated on the right. -/
theorem hasTriple_append_left (a b : List Char) (h : hasTriple (a ++ b) = false) :
    hasTriple a = false := by
  rcases Bool.eq_false_or_eq_true (hasTriple a) with h2 | h2
  · rw [hasTriple_mono a b h2] at h
    simp at h
  · exact h2

/-- The first three characters of `c :: (a ++ fence ++ b)` agree with
those of `c :: (a ++ [backquote, backquote])`. -/
theorem startsTriple_cons_pad (c : Char) (a b : List Char) :
    startsTriple (c :: (a ++ (tripleL ++ b)))
      = startsTriple (c :: (a ++ [btick, btick])) := by
  cases a with
  | nil => simp [tripleL, startsTriple]
  | cons d a2 =>
    cases a2 with
    | nil => simp [tripleL, startsTriple]
    | cons e a3 => simp [startsTriple]

/-- A fence-free list has no split point. -/
theorem splitTriple_none (l : List Char) (h : hasTriple l = false) :
    splitTriple l = none := by
  induction l with
  | nil => rfl
  | cons c rest ih =>
    simp only [hasTriple, Bool.or_eq_false_iff] at h
    simp [splitTriple, h.1, ih h.2]

/-- Splitting at the first fence of `a ++ fence ++ b` when `a` is
fence-free and does not end in a backquote (jointly: `a` padded with two
backquotes is fence-free) yields `a` and `b`. -/
theorem splitTriple_append (a b : List Char)
    (h : hasTriple (a ++ [btick, btick]) = false) :
    splitTriple (a ++ (tripleL ++ b)) = some (a, b) := by
  induction a with
  | nil =>
    show splitTriple (tripleL ++ b) = some ([], b)
    simp [tripleL, splitTriple, startsTriple]
  | cons c a2 ih =>
    simp only [List.cons_append, hasTriple, Bool.or_eq_false_iff] at h
    have h1 : startsTriple (c :: (a2 ++ (tripleL ++ b))) = false := by
      rw [startsTriple_cons_pad]
      exact h.1
    show splitTriple (c :: (a2 ++ (tripleL ++ b))) = some (c :: a2, b)
    simp [splitTriple, h1, ih h.2]

/-- The split of a prefix, one fenced block, and a fence-free suffix is
the three-part list, for any (sufficient) fuel. -/
theorem reSplitAux_fence (n : Nat) (pre code post : List Char)
    (h1 : hasTriple (pre ++ [btick, btick]) = false)
    (h2 : hasTriple (code ++ [btick, btick]) = false)
    (h3 : hasTriple post = false) :
    reSplitAux (n + 1) (pre ++ (tripleL ++ (code ++ (tripleL ++ post))))
      = [pre, tripleL ++ code ++ tripleL, post] := by
  have e1 := splitTriple_append pre (code ++ (tripleL ++ post)) h1
  have e2 := splitTriple_append code post h2
  have etail : ∀ k : Nat, reSplitAux k post = [post] := by
    intro k
    cases k with
    | zero => rfl
    | succ k2 => simp [reSplitAux, splitTriple_none post h3]
  simp [reSplitAux, e1, e2, etail, List.append_assoc]

/-- Newline normalization is the identity on carriage-return-free text. -/
theorem normCRLF_id (l : List Char) (h : '\r' ∉ l) : normCRLF l = l := by
  induction l with
  | nil => rfl
  | cons c rest ih =>
    have hc : c ≠ '\r' := fun he => h (he ▸ List.mem_cons_self c rest)
    have hrest : '\r' ∉ rest := fun hm => h (List.mem_cons_of_mem c hm)
    cases rest with
    | nil => rfl
    | cons d rest2 =>
      have hcond : ¬(c = '\r' ∧ d = '\n') := fun hp => hc hp.1
      simp [normCRLF, hcond, ih hrest]

/-- The fence string is the fence character list. -/
theorem fence_data : ("```" : String).data = tripleL := by decide

/-- A list starting with the fence has a fence. -/
theorem isPrefixOf_fence_hasTriple (l : List Char)
    (h : tripleL.isPrefixOf l = true) : hasTriple l = true := by
  rw [List.isPrefixOf_iff_prefix] at h
  obtain ⟨t, ht⟩ := h
  rw [← ht]
  simp [tripleL, hasTriple, startsTriple]

/-- A fence-free string does not start with the fence. -/
theorem pyStartsWith_fence_false (s : String) (h : hasTriple s.data = false) :
    pyStartsWith s "```" = false := by
  unfold pyStartsWith
  rw [fence_data]
  rcases Bool.eq_false_or_eq_true (tripleL.isPrefixOf s.data) with h2 | h2
  · rw [isPrefixOf_fence_hasTriple s.data h2] at h
    simp at h
  · exact h2

/-- A text of the form fence-content-fence starts with the fence. -/
theorem pyStartsWith_fence_true (code : String) :
    pyStartsWith ("```" ++ code ++ "```") "```" = true := by
  unfold pyStartsWith
  rw [String.data_append, String.data_append, fence_data]
  rw [List.isPrefixOf_iff_prefix, List.append_assoc]
  exact List.prefix_append _ _

/-- A text of the form fence-content-fence ends with the fence. -/
theorem pyEndsWith_fence_true (code : String) :
    pyEndsWith ("```" ++ code ++ "```") "```" = true := by
  unfold pyEndsWith
  rw [String.data_append, String.data_append, fence_data]
  rw [List.isSuffixOf_iff_suffix]
  exact List.suffix_append _ _

/-- The slice `part[3:-3]` of a fenced part recovers the fenced
content. -/
theorem sliceInner_fence (code : String) :
    sliceInner ("```" ++ code ++ "```") = code := by
  unfold sliceInner
  rw [String.data_append, String.data_append, fence_data]
  have hlen : ((tripleL ++ code.data) ++ tripleL).length - 3
      = (tripleL ++ code.data).length := by
    simp [tripleL]
  rw [hlen, List.take_left]
  have h3 : (3 : Nat) = tripleL.length := rfl
  rw [h3, List.drop_left]

/-- For user turns, a non-code part renders as its escape with newlines
replaced by line breaks. -/
theorem renderTextPart_user (text part : String) :
    renderTextPart "User" text part = pyReplace (htmlEscape part) "\n" "<br>" := by
  have h : (("User" : String) == "Assistant") = false := by decide
  simp [renderTextPart, h]

/-- A fence-free part is rendered as text. -/
theorem renderPart_text (role text part : String) (h : hasTriple part.data = false) :
    renderPart role text part = renderTextPart role text part := by
  simp [renderPart, pyStartsWith_fence_false part h]

/-- A fenced part is rendered as a preformatted block of its stripped,
escaped content. -/
theorem renderPart_fence (role text code : String) :
    renderPart role text ("```" ++ code ++ "```")
      = codeBlockHtml (htmlEscape (stripLangTag code)) := by
  simp [renderPart, pyStartsWith_fence_true, pyEndsWith_fence_true,
    renderCodePart, sliceInner_fence]

/-- Claim C8: rendering a prefix, one fenced block, and a suffix — none
containing a fence of their own, with the prefix and content not ending
in a backquote (expressed by fence-freedom after padding with two
backquotes) and no carriage returns — splits into exactly three
segments; only the middle is wrapped as a preformatted block, with a
leading language tag (if present) stripped from its content, while the
prefix and suffix are HTML-escaped, not wrapped. -/
theorem claim8_fenced_block_rendering (pre code post : String)
    (h1 : hasTriple (pre.data ++ [btick, btick]) = false)
    (h2 : hasTriple (code.data ++ [btick, btick]) = false)
    (h3 : hasTriple post.data = false)
    (hr1 : '\r' ∉ pre.data) (hr2 : '\r' ∉ code.data) (hr3 : '\r' ∉ post.data) :
    reSplitFenced (pre ++ "```" ++ code ++ "```" ++ post)
        = [pre, "```" ++ code ++ "```", post]
    ∧ addBubbleParts "User" (pre ++ "```" ++ code ++ "```" ++ post)
        = [pyReplace (htmlEscape pre) "\n" "<br>",
           codeBlockHtml (htmlEscape (stripLangTag code)),
           pyReplace (htmlEscape post) "\n" "<br>"] := by
  have hdata : (pre ++ "```" ++ code ++ "```" ++ post).data
      = pre.data ++ (tripleL ++ (code.data ++ (tripleL ++ post.data))) := by
    rw [String.data_append, String.data_append, String.data_append,
      String.data_append, fence_data, List.append_assoc, List.append_assoc,
      List.append_assoc]
  have hsplit : reSplitFenced (pre ++ "```" ++ code ++ "```" ++ post)
      = [pre, "```" ++ code ++ "```", post] := by
    unfold reSplitFenced
    rw [hdata]
    have hlen : (pre.data ++ (tripleL ++ (code.data ++ (tripleL ++ post.data)))).length
        = (pre.data.length + code.data.length + post.data.length + 5) + 1 := by
      simp [tripleL]
      omega
    rw [hlen, reSplitAux_fence _ _ _ _ h1 h2 h3]
    have hmid : (⟨(tripleL ++ code.data) ++ tripleL⟩ : String)
        = "```" ++ code ++ "```" := by
      apply String.ext
      show (tripleL ++ code.data) ++ tripleL = ("```" ++ code ++ "```").data
      rw [String.data_append, String.data_append, fence_data]
    simp only [List.map]
    rw [hmid]
  have hbt : ('\r' : Char) ≠ btick := by decide
  have hrT : '\r' ∉ (pre ++ "```" ++ code ++ "```" ++ post).data := by
    rw [hdata]
    simp [List.mem_append, tripleL, hr1, hr2, hr3, hbt]
  have habp : addBubbleParts "User" (pre ++ "```" ++ code ++ "```" ++ post)
      = (reSplitFenced (pre ++ "```" ++ code ++ "```" ++ post)).map
          (renderPart "User" (pre ++ "```" ++ code ++ "```" ++ post)) := by
    show (reSplitFenced (⟨normCRLF (pre ++ "```" ++ code ++ "```" ++ post).data⟩ : String)).map
        (renderPart "User" (⟨normCRLF (pre ++ "```" ++ code ++ "```" ++ post).data⟩ : String)) = _
    rw [normCRLF_id _ hrT]
  have hpre : hasTriple pre.data = false := hasTriple_append_left _ _ h1
  refine ⟨hsplit, ?_⟩
  rw [habp, hsplit]
  simp only [List.map]
  rw [renderPart_text _ _ pre hpre, renderPart_fence,
    renderPart_text _ _ post h3, renderTextPart_user, renderTextPart_user]

/-- Witness for C8 at a concrete text with a language-tagged fenced
block. -/
theorem claim8_fenced_block_rendering_witness :
    addBubbleParts "User" "before ```python\nx<1``` after"
      = ["before ", codeBlockHtml "x&lt;1", " after"] := by
  have h := (claim8_fenced_block_rendering "before " "python\nx<1" " after"
    (by decide) (by decide) (by decide) (by decide) (by decide) (by decide)).2
  have heq : "before " ++ "```" ++ "python\nx<1" ++ "```" ++ " after"
      = "before ```python\nx<1``` after" := by decide
  rw [heq] at h
  rw [h]
  decide

end TrayChatAI
